import Mathlib

/-!
Shallow embedding of the cosmos incident-triage agent
(src/agent/observe.py, reason.py, decide.py, act.py, memory.py,
llm_client.py) and verification of its specification claims.

Modelling conventions:
* Python dictionaries with a fixed schema become Lean structures; a field
  read with `d.get(k, default)` whose key may be absent becomes an
  `Option` field read with `Option.getD`.
* Python floats become `ℚ` (the code only compares and copies these
  numbers, so exact rationals model every comparison in the source).
* Wall-clock reads (`time.time()`) and fresh ids (`uuid.uuid4()`) are
  injected as explicit arguments.
* Fallible code (the delegate call, Python `float(...)` coercion) is
  modelled with `Except`; an exception escaping to a `try`/`except`
  handler corresponds to the `.error` branch reaching the handler.
-/

namespace Cosmos

/-- A root-cause hypothesis: the dict
`{"cause": ..., "explanation": ..., "confidence": ...}` built by the
Reasoner (src/agent/reason.py). -/
structure Hypothesis where
  cause : String
  explanation : String
  confidence : ℚ
deriving DecidableEq, Repr

/-- The Reasoning dict returned by `Reasoner.reason`: mode, hypotheses,
assumptions, unknowns, overall confidence, and (only in the
`llm_failed` branch) the recorded error string. -/
structure Reasoning where
  reasoning_mode : String
  hypotheses : List Hypothesis
  assumptions : List String
  unknowns : List String
  confidence : ℚ
  error : Option String := none
deriving DecidableEq, Repr

/-! ### Raw signals and the Observer (src/agent/observe.py) -/

/-- An opaque raw record (tickets and webhooks are never inspected by
the Observer beyond counting). -/
structure RawRecord where
  payload : String
deriving DecidableEq, Repr

/-- A checkout record; `c.get("status")` yields `none` when the key is
absent. -/
structure Checkout where
  status : Option String
deriving DecidableEq, Repr

/-- An error event; `error.get("type", "unknown")` defaults the absent
key to `"unknown"`. -/
structure ErrorEvent where
  etype : Option String
deriving DecidableEq, Repr

/-- A migration-state record; `m.get("stage", "unknown")` defaults the
absent key to `"unknown"`. -/
structure MigrationState where
  stage : Option String
deriving DecidableEq, Repr

/-- The raw-signal batch handed to `Observer.observe`; each bucket may
be absent (`raw_signals.get(key, [])`). -/
structure RawSignals where
  tickets : Option (List RawRecord) := none
  errors : Option (List ErrorEvent) := none
  checkouts : Option (List Checkout) := none
  webhooks : Option (List RawRecord) := none
  migration_states : Option (List MigrationState) := none
deriving DecidableEq, Repr

/-- The normalized `signals` buckets produced by
`Observer._ingest_signals`. -/
structure Signals where
  tickets : List RawRecord
  errors : List ErrorEvent
  checkouts : List Checkout
  webhooks : List RawRecord
  migration_states : List MigrationState
deriving DecidableEq, Repr

/-- The derived `stats` dict. The two histograms keep Python's
`dict(defaultdict)` insertion order as association lists. -/
structure Stats where
  ticket_count : Nat
  error_count : Nat
  failed_checkouts : Nat
  error_types : List (String × Nat)
  migration_stage_distribution : List (String × Nat)
deriving DecidableEq, Repr

/-- An anomaly dict: `checkout_failures` entries carry no `error_type`
key (`none`); `repeated_error` entries carry `some` error type. -/
structure Anomaly where
  atype : String
  error_type : Option String := none
  count : Nat
  severity : String
deriving DecidableEq, Repr

/-- The Observation snapshot returned by `Observer.observe`. -/
structure Observation where
  observation_id : Nat
  timestamp : ℚ
  signals : Signals
  stats : Stats
  anomalies : List Anomaly
  confidence : ℚ
deriving DecidableEq, Repr

/-- `defaultdict(int)` increment followed by `dict(...)`: bump the count
of `k`, appending a fresh key at the end (Python dicts preserve first-
insertion order). -/
def bumpCount : List (String × Nat) → String → List (String × Nat)
  | [], k => [(k, 1)]
  | (k', n) :: rest, k =>
      if k' = k then (k', n + 1) :: rest else (k', n) :: bumpCount rest k

/-- Build an insertion-ordered histogram of a list of keys. -/
def histogram (keys : List String) : List (String × Nat) :=
  keys.foldl bumpCount []

/-- `h.get(key, 0)` on a histogram association list. -/
def lookupCount (l : List (String × Nat)) (k : String) : Nat :=
  match l.find? (fun p => p.1 = k) with
  | some p => p.2
  | none => 0

namespace Observer

/-- `Observer._ingest_signals`: absent buckets default to `[]`. -/
def ingestSignals (raw : RawSignals) : Signals where
  tickets := raw.tickets.getD []
  errors := raw.errors.getD []
  checkouts := raw.checkouts.getD []
  webhooks := raw.webhooks.getD []
  migration_states := raw.migration_states.getD []

/-- `Observer._compute_stats`. -/
def computeStats (signals : Signals) : Stats where
  ticket_count := signals.tickets.length
  error_count := signals.errors.length
  failed_checkouts :=
    (signals.checkouts.filter (fun c => c.status = some "failed")).length
  error_types := histogram (signals.errors.map (fun e => e.etype.getD "unknown"))
  migration_stage_distribution :=
    histogram (signals.migration_states.map (fun m => m.stage.getD "unknown"))

/-- The `checkout_failures` anomaly dict appended by
`Observer._detect_anomalies`. -/
def checkoutAnomaly (count : Nat) : Anomaly where
  atype := "checkout_failures"
  count := count
  severity := "high"

/-- The `repeated_error` anomaly dict appended by
`Observer._detect_anomalies` for one `(error_type, count)` item. -/
def repeatedErrorAnomaly (p : String × Nat) : Anomaly where
  atype := "repeated_error"
  error_type := some p.1
  count := p.2
  severity := "medium"

/-- `Observer._detect_anomalies`: append one `checkout_failures`
anomaly when `failed_checkouts > 0`, then loop over
`stats["error_types"].items()` appending one `repeated_error` anomaly
per count `≥ 5`. -/
def detectAnomalies (stats : Stats) : List Anomaly :=
  let anomalies : List Anomaly := []
  let anomalies :=
    if stats.failed_checkouts > 0 then
      anomalies ++ [checkoutAnomaly stats.failed_checkouts]
    else anomalies
  stats.error_types.foldl (fun acc p =>
    if p.2 ≥ 5 then acc ++ [repeatedErrorAnomaly p] else acc) anomalies

/-- The number of falsy (= empty) buckets among the five signal
buckets. -/
def missingSources (signals : Signals) : Nat :=
  (if signals.tickets = [] then 1 else 0) +
  (if signals.errors = [] then 1 else 0) +
  (if signals.checkouts = [] then 1 else 0) +
  (if signals.webhooks = [] then 1 else 0) +
  (if signals.migration_states = [] then 1 else 0)

/-- `Observer._estimate_confidence`:
`max(1.0 - missing_sources * 0.1, 0.5)`. -/
def estimateConfidence (signals : Signals) : ℚ :=
  max (1 - missingSources signals * (1/10)) (1/2)

/-- `Observer.observe`. The instance counter `self.observation_id` is
passed as `prevId` and returned incremented; `time.time()` is injected
as `now`. -/
def observe (prevId : Nat) (now : ℚ) (raw : RawSignals) : Nat × Observation :=
  let oid := prevId + 1
  let signals := ingestSignals raw
  let stats := computeStats signals
  (oid,
   { observation_id := oid
     timestamp := now
     signals := signals
     stats := stats
     anomalies := detectAnomalies stats
     confidence := estimateConfidence signals })

end Observer

/-! ### The Reasoner (src/agent/reason.py) and the delegate contract
(src/agent/llm_client.py)

`OllamaClient.generate` either returns the parsed JSON object or raises
(timeout, transport error, non-2xx status, empty text, invalid JSON,
non-object root).  The embedding carries the outcome of one `generate`
call as `Except String LLMResponse`, where the `.error` payload is the
exception's message. -/

/-- A value sitting in a confidence slot of the delegate's JSON, as the
Python coercions see it: `num q` is an `int`/`float` with value `q`
(`isinstance(·, (int, float))` true); `strNum q` is a string that
`float(...)` parses to `q`; `bad s` is any other JSON value, on which
`float(...)` raises (message `s`). -/
inductive ConfVal where
  | num (q : ℚ)
  | strNum (q : ℚ)
  | bad (s : String)
deriving DecidableEq, Repr

/-- One entry of the delegate's `hypotheses` array: a JSON object (with
possibly-absent `cause`, `explanation`, `confidence` keys), a bare
string, or any other JSON value (skipped by the normalizer). -/
inductive RawHyp where
  | dict (cause : Option String) (explanation : Option String)
      (confidence : Option ConfVal)
  | str (s : String)
  | other (s : String)
deriving DecidableEq, Repr

/-- The delegate's `hypotheses` field: a JSON array, or any non-list
value (in which case the normalizer keeps no hypotheses). -/
inductive RawHyps where
  | list (hs : List RawHyp)
  | nonList (s : String)
deriving DecidableEq, Repr

/-- One entry of the delegate's `assumptions`/`unknowns` arrays, as
`Reasoner._stringify` sees it: a string, a JSON object (with the three
keys it probes and its `json.dumps` rendering), or any other value
(with its `str(...)` rendering). -/
inductive SVal where
  | str (s : String)
  | dict (description explanation justification : Option String) (dump : String)
  | other (s : String)
deriving DecidableEq, Repr

/-- The JSON object returned by `OllamaClient.generate` (guaranteed to
be a dict), with each key the Reasoner reads; `none` = absent key.  The
top-level `confidence` may be any JSON value (`ConfVal`). -/
structure LLMResponse where
  confidence : Option ConfVal := none
  hypotheses : Option RawHyps := none
  assumptions : Option (List SVal) := none
  unknowns : Option (List SVal) := none
deriving DecidableEq, Repr

namespace Reasoner

/-- Python's falsy-aware `a or b` on an optional string: an absent or
empty string falls through to `b`. -/
def pyOrStr (a : Option String) (b : String) : String :=
  match a with
  | some s => if s = "" then b else s
  | none => b

/-- `Reasoner._stringify`. -/
def stringify : SVal → String
  | .str s => s
  | .dict d e j dump => pyOrStr d (pyOrStr e (pyOrStr j dump))
  | .other s => s

/-- `Reasoner._should_use_llm`. -/
def shouldUseLLM (observation : Observation) : Bool :=
  if observation.confidence < 85/100 then true
  else if observation.anomalies.length ≥ 2 then true
  else false

/-- Python `float(...)` applied to a confidence slot; raising becomes
`.error`. -/
def pyFloat : ConfVal → Except String ℚ
  | .num q => .ok q
  | .strNum q => .ok q
  | .bad s => .error s

/-- The normalization loop over `raw_hypotheses` in
`Reasoner._reason_with_llm`: dict entries are coerced (a `float(...)`
failure aborts the whole call), string entries become bare hypotheses,
anything else is skipped. -/
def normalizeHyps (confidence : ℚ) : List RawHyp → Except String (List Hypothesis)
  | [] => .ok []
  | .dict c e cv :: rest => do
      let q ← pyFloat (cv.getD (.num confidence))
      let tail ← normalizeHyps confidence rest
      .ok ({ cause := c.getD "unknown"
             explanation := e.getD ""
             confidence := q } :: tail)
  | .str s :: rest => do
      let tail ← normalizeHyps confidence rest
      .ok ({ cause := s, explanation := "", confidence := confidence } :: tail)
  | .other _ :: rest => normalizeHyps confidence rest

/-- The success path of `Reasoner._reason_with_llm` (everything inside
the `try` after `generate` returned); a `.error` is an exception
escaping to the `except` handler. -/
def normalizeLLMResponse (response : LLMResponse) : Except String Reasoning := do
  let confidence : ℚ :=
    match response.confidence with
    | some (.num q) => q
    | _ => 1/2
  let hypotheses ←
    match response.hypotheses.getD (.list []) with
    | .list hs => normalizeHyps confidence hs
    | .nonList _ => .ok []
  let hypotheses :=
    if hypotheses = [] then
      [{ cause := "unknown"
         explanation := "LLM did not return a valid hypothesis"
         confidence := 4/10 }]
    else hypotheses
  .ok { reasoning_mode := "llm"
        hypotheses := hypotheses
        assumptions := (response.assumptions.getD []).map stringify
        unknowns := (response.unknowns.getD []).map stringify
        confidence := confidence }

/-- The `except Exception` branch of `Reasoner._reason_with_llm`. -/
def llmFailedFallback (e : String) : Reasoning where
  reasoning_mode := "llm_failed"
  hypotheses :=
    [{ cause := "unknown"
       explanation := "LLM failed or returned malformed output"
       confidence := 4/10 }]
  assumptions := []
  unknowns := ["LLM reasoning failed"]
  confidence := 4/10
  error := some e

/-- `Reasoner._reason_with_llm`, given the outcome of the one
`self.llm.generate(prompt)` call it makes. -/
def reasonWithLLM (genResult : Except String LLMResponse) : Reasoning :=
  match genResult with
  | .error e => llmFailedFallback e
  | .ok response =>
      match normalizeLLMResponse response with
      | .ok r => r
      | .error e => llmFailedFallback e

/-- Python's `max(h["confidence"] for h in hypotheses)`; it raises on
an empty list (which no caller ever passes), so the `[]` value here is
an unreachable placeholder. -/
def pyMaxConf : List Hypothesis → ℚ
  | [] => 0
  | h :: t => t.foldl (fun m h' => max m h'.confidence) h.confidence

/-- `Reasoner._reason_deterministic`: the four threshold rules, then
the `normal_operation` fallback when none fired. -/
def reasonDeterministic (observation : Observation) : Reasoning :=
  let stats := observation.stats
  let error_types := stats.error_types
  let hypotheses : List Hypothesis := []
  let hypotheses :=
    if stats.failed_checkouts ≥ 5 then
      hypotheses ++
        [{ cause := "migration_misconfiguration"
           explanation := "High number of checkout failures detected after migration"
           confidence := 8/10 }]
    else hypotheses
  let hypotheses :=
    if lookupCount error_types "webhook_401" ≥ 3 then
      hypotheses ++
        [{ cause := "webhook_auth_failure"
           explanation := "Repeated webhook authentication failures detected"
           confidence := 7/10 }]
    else hypotheses
  let hypotheses :=
    if lookupCount error_types "frontend_state_mismatch" ≥ 3 then
      hypotheses ++
        [{ cause := "frontend_backend_mismatch"
           explanation := "Frontend and backend states are inconsistent"
           confidence := 65/100 }]
    else hypotheses
  let hypotheses :=
    if lookupCount error_types "unknown" ≥ 10 then
      hypotheses ++
        [{ cause := "platform_regression"
           explanation := "High volume of unknown errors suggests a platform regression"
           confidence := 6/10 }]
    else hypotheses
  let hypotheses :=
    if hypotheses = [] then
      [{ cause := "normal_operation"
         explanation := "System signals are within expected parameters"
         confidence := 9/10 }]
    else hypotheses
  { reasoning_mode := "deterministic"
    hypotheses := hypotheses
    assumptions := ["Observed signals accurately reflect system behavior"]
    unknowns := ["Merchant-specific configurations not visible"]
    confidence := pyMaxConf hypotheses }

/-- `Reasoner._build_prompt`: a fixed template around renderings of the
stats and anomalies (the exact text is irrelevant to every claim; the
renderings stand for Python's f-string interpolation). -/
def buildPrompt (observation : Observation) : String :=
  "You are an automated incident analysis system. " ++
    "Stats: " ++ toString (repr observation.stats) ++
    " Anomalies: " ++ toString (repr observation.anomalies) ++
    " Return JSON ONLY."

/-- `Reasoner.reason`: `llm` is the configured delegate (`self.llm`,
modelled as the prompt→outcome behaviour of its `generate` method, or
`none` when unconfigured); `useLlmEnv` is
`os.getenv("USE_LLM", "true").lower() == "true"`. -/
def reason (llm : Option (String → Except String LLMResponse))
    (useLlmEnv : Bool) (observation : Observation) : Reasoning :=
  match llm with
  | some gen =>
      if useLlmEnv && shouldUseLLM observation then
        reasonWithLLM (gen (buildPrompt observation))
      else
        reasonDeterministic observation
  | none => reasonDeterministic observation

end Reasoner

/-! ### The Decider (src/agent/decide.py) -/

/-- A Decision dict: `type`, `reason`, `requires_human_approval`, and
(for `escalate_engineering` only) a `severity` key. -/
structure Decision where
  dtype : String
  reason : String
  requires_human_approval : Bool
  severity : Option String := none
deriving DecidableEq, Repr

/-- The `trace` sub-dict of a decision output. -/
structure Trace where
  observation_confidence : ℚ
  reasoning_confidence : ℚ
deriving DecidableEq, Repr

/-- The dict returned by `Decider.decide`. -/
structure DecisionOutput where
  observation_id : Nat
  decisions : List Decision
  risk_level : String
  trace : Trace
deriving DecidableEq, Repr

namespace Decider

/-- The running-best loop of Python's
`max(hypotheses, key=lambda h: h.get("confidence", 0))`: the best so
far is replaced only on a strictly larger key, so ties keep the
earlier element. -/
def pymaxAux (b : Hypothesis) (t : List Hypothesis) : Hypothesis :=
  t.foldl (fun best h' =>
    if best.confidence < h'.confidence then h' else best) b

/-- `Decider._get_top_hypothesis`; the empty list yields the
`{"cause": "unknown", "confidence": 0.0}` default. -/
def getTopHypothesis (hypotheses : List Hypothesis) : Hypothesis :=
  match hypotheses with
  | [] => { cause := "unknown", explanation := "", confidence := 0 }
  | h :: t => pymaxAux h t

/-- `Decider._monitor_only`. -/
def monitorOnly (reason : String) : Decision where
  dtype := "monitor_only"
  reason := reason
  requires_human_approval := false

/-- `Decider._support_guidance`. -/
def supportGuidance (reason : String) (requires_human_approval : Bool) :
    Decision where
  dtype := "support_guidance"
  reason := reason
  requires_human_approval := requires_human_approval

/-- `Decider._escalate_engineering`. -/
def escalateEngineering (severity reason : String)
    (requires_human_approval : Bool) : Decision where
  dtype := "escalate_engineering"
  reason := reason
  requires_human_approval := requires_human_approval
  severity := some severity

/-- `Decider._documentation_update`. -/
def documentationUpdate (reason : String) : Decision where
  dtype := "documentation_update_suggestion"
  reason := reason
  requires_human_approval := true

/-- `Decider._assess_risk`. -/
def assessRisk (decisions : List Decision) : String :=
  if decisions.any (fun d => d.dtype = "escalate_engineering") then "high"
  else if decisions.any (fun d => d.requires_human_approval) then "medium"
  else "low"

/-- `Decider._finalize`. -/
def finalize (decisions : List Decision) (observation : Observation)
    (reasoning : Reasoning) : DecisionOutput where
  observation_id := observation.observation_id
  decisions := decisions
  risk_level := assessRisk decisions
  trace :=
    { observation_confidence := observation.confidence
      reasoning_confidence := reasoning.confidence }

/-- `Decider._block`. -/
def block (reason : String) (observation : Observation)
    (reasoning : Reasoning) : DecisionOutput where
  observation_id := observation.observation_id
  decisions :=
    [{ dtype := "block_auto_actions"
       reason := reason
       requires_human_approval := true }]
  risk_level := "high"
  trace :=
    { observation_confidence := observation.confidence
      reasoning_confidence := reasoning.confidence }

/-- `Decider.decide`. -/
def decide (observation : Observation) (reasoning : Reasoning) :
    DecisionOutput :=
  let hypotheses := reasoning.hypotheses
  let top := getTopHypothesis hypotheses
  let cause := top.cause
  if observation.confidence < 6/10 then
    block "Low observation confidence" observation reasoning
  else
    let decisions :=
      if cause = "platform_regression" then
        [escalateEngineering "high"
          "Suspected platform regression across services" false]
      else if cause = "webhook_auth_failure" then
        [supportGuidance "Webhook authentication failures detected" false]
      else if cause = "frontend_backend_mismatch" then
        [documentationUpdate "Frontend and backend state mismatch observed",
         monitorOnly "Mismatch may resolve after configuration sync"]
      else if cause = "migration_misconfiguration" then
        [supportGuidance "Likely merchant-side migration misconfiguration" false]
      else if cause = "normal_operation" then
        [monitorOnly "System operating normally"]
      else
        [monitorOnly "Root cause unclear, monitoring for changes"]
    finalize decisions observation reasoning

end Decider

/-! ### The Actor (src/agent/act.py) -/

/-- An Action record; each variant populates only its own keys. -/
structure Action where
  action : String
  note : Option String := none
  message : Option String := none
  reason : Option String := none
  severity : Option String := none
  summary : Option String := none
deriving DecidableEq, Repr

/-- The state update returned by `Actor.act` (and appended to the
state file). -/
structure StateUpdate where
  timestamp : ℚ
  observation_id : Nat
  actions_taken : List Action
  pending_approvals : List Decision
  risk_level : String
deriving DecidableEq, Repr

namespace Actor

/-- `Actor._monitor`. -/
def monitor (decision : Decision) : Action where
  action := "monitoring"
  note := some decision.reason

/-- `Actor._support_guidance`. -/
def supportGuidance (decision : Decision) : Action where
  action := "support_guidance_prepared"
  message := some ("Provide merchant with migration checklist, " ++
    "webhook verification steps, and API credential validation.")
  reason := some decision.reason

/-- `Actor._escalate_engineering`. -/
def escalateEngineering (decision : Decision) : Action where
  action := "engineering_escalation_created"
  severity := decision.severity
  summary :=
    some "Potential platform regression detected during headless migration."

/-- `Actor._execute`: returns `none` for unknown or blocked variants
(Python `None`, falsy at the `if action:` check). -/
def execute (decision : Decision) : Option Action :=
  if decision.dtype = "monitor_only" then some (monitor decision)
  else if decision.dtype = "support_guidance" then
    some (supportGuidance decision)
  else if decision.dtype = "escalate_engineering" then
    some (escalateEngineering decision)
  else none

/-- The loop body of `Actor.act` over the decisions, accumulating
`actions_taken` and `pending_approvals` (each returned in loop order). -/
def actLoop : List Decision → List Action × List Decision
  | [] => ([], [])
  | decision :: rest =>
      let (actions, pending) := actLoop rest
      if decision.requires_human_approval then
        (actions, decision :: pending)
      else
        match execute decision with
        | some action => (action :: actions, pending)
        | none => (actions, pending)

/-- `Actor.act`; `time.time()` is injected as `now`.  (The append of
the state update to the state file is I/O outside the returned value.) -/
def act (now : ℚ) (decision_output : DecisionOutput) : StateUpdate :=
  let (actions_taken, pending_approvals) := actLoop decision_output.decisions
  { timestamp := now
    observation_id := decision_output.observation_id
    actions_taken := actions_taken
    pending_approvals := pending_approvals
    risk_level := decision_output.risk_level }

end Actor

/-! ### Memory (src/agent/memory.py)

The durable JSON file holds the full list of incidents; `_load`/`_save`
read and rewrite it wholesale.  The embedding passes that list
explicitly and models each operation as a function of it. -/

/-- The outcome dict attached by `Memory.update_outcome`:
`{"timestamp": time.time(), **outcome}`.  The feedback payload is kept
opaque; the model assumes it carries no `timestamp` key of its own
(otherwise Python's dict-merge would let it shadow the fresh one). -/
structure StoredOutcome where
  timestamp : ℚ
  payload : List (String × String)
deriving DecidableEq, Repr

/-- An Incident record as stored by `Memory.record_incident`. -/
structure Incident where
  incident_id : String
  timestamp : ℚ
  observation : Observation
  reasoning : Reasoning
  decision : DecisionOutput
  action : StateUpdate
  outcome : Option StoredOutcome
deriving DecidableEq, Repr

namespace Memory

/-- `Memory.record_incident`; `uuid.uuid4()` and `time.time()` are
injected as `freshId` and `now`.  Returns the saved collection and the
returned incident id. -/
def record_incident (memory : List Incident) (observation : Observation)
    (reasoning : Reasoning) (decision : DecisionOutput)
    (action : StateUpdate) (freshId : String) (now : ℚ) :
    List Incident × String :=
  let incident : Incident :=
    { incident_id := freshId
      timestamp := now
      observation := observation
      reasoning := reasoning
      decision := decision
      action := action
      outcome := none }
  (memory ++ [incident], incident.incident_id)

/-- `Memory.update_outcome`: overwrite the `outcome` of the first
incident with the given id (the loop `break`s after the first match);
absent ids leave the collection unchanged. -/
def update_outcome (memory : List Incident) (incident_id : String)
    (outcome : List (String × String)) (now : ℚ) : List Incident :=
  match memory with
  | [] => []
  | entry :: rest =>
      if entry.incident_id = incident_id then
        { entry with outcome := some { timestamp := now, payload := outcome } }
          :: rest
      else entry :: update_outcome rest incident_id outcome now

/-- The cause test inside `Memory.query_similar`'s inner loop:
`if cause and h.get("cause") != cause: continue` — skipped when the
cause argument is Python-falsy (absent, i.e. `None`, or the empty
string). -/
def causeFilterPasses (cause : Option String) (h : Hypothesis) : Bool :=
  match cause with
  | none => true
  | some s => if s = "" then true else h.cause = s

/-- The inner loop of `Memory.query_similar` over one incident's
hypotheses: `true` iff some hypothesis survives both `continue`s (the
entry is then appended once and the loop `break`s). -/
def entryMatches (cause : Option String) (min_confidence : ℚ) :
    List Hypothesis → Bool
  | [] => false
  | h :: rest =>
      if ¬ causeFilterPasses cause h then
        entryMatches cause min_confidence rest
      else if h.confidence < min_confidence then
        entryMatches cause min_confidence rest
      else true

/-- `Memory.query_similar`. -/
def query_similar (memory : List Incident) (cause : Option String)
    (min_confidence : ℚ) : List Incident :=
  memory.filter (fun entry =>
    entryMatches cause min_confidence entry.reasoning.hypotheses)

/-- Modelled from the spec: the spec's testable property for C8 speaks
of `record_incident` "followed immediately by a lookup for that id";
the source ships no by-id lookup operation, so it is modelled here as
the first incident carrying the id. -/
def lookup (memory : List Incident) (incident_id : String) :
    Option Incident :=
  memory.find? (fun entry => entry.incident_id = incident_id)

end Memory

/-! ### Specification-side definitions

These follow the specification's words (not the source) and are
compared against the source-derived definitions in the claim
theorems. -/

/-- The deterministic rule table exactly as claim C3 states it: one
hypothesis per firing threshold rule, and the single
`normal_operation`/0.9 hypothesis when no rule fires. -/
def detHypothesesSpec (observation : Observation) : List Hypothesis :=
  let stats := observation.stats
  let fired : List Hypothesis :=
    (if stats.failed_checkouts ≥ 5 then
      [{ cause := "migration_misconfiguration"
         explanation := "High number of checkout failures detected after migration"
         confidence := 8/10 }]
    else []) ++
    (if lookupCount stats.error_types "webhook_401" ≥ 3 then
      [{ cause := "webhook_auth_failure"
         explanation := "Repeated webhook authentication failures detected"
         confidence := 7/10 }]
    else []) ++
    (if lookupCount stats.error_types "frontend_state_mismatch" ≥ 3 then
      [{ cause := "frontend_backend_mismatch"
         explanation := "Frontend and backend states are inconsistent"
         confidence := 65/100 }]
    else []) ++
    (if lookupCount stats.error_types "unknown" ≥ 10 then
      [{ cause := "platform_regression"
         explanation := "High volume of unknown errors suggests a platform regression"
         confidence := 6/10 }]
    else [])
  if fired = [] then
    [{ cause := "normal_operation"
       explanation := "System signals are within expected parameters"
       confidence := 9/10 }]
  else fired

/-- The cause→decision policy table exactly as claim C5 states it,
projected to (variant, requires_human_approval, severity) triples. -/
def policyTableSpec (cause : String) : List (String × Bool × Option String) :=
  if cause = "platform_regression" then
    [("escalate_engineering", false, some "high")]
  else if cause = "webhook_auth_failure" then
    [("support_guidance", false, none)]
  else if cause = "frontend_backend_mismatch" then
    [("documentation_update_suggestion", true, none),
     ("monitor_only", false, none)]
  else if cause = "migration_misconfiguration" then
    [("support_guidance", false, none)]
  else if cause = "normal_operation" then
    [("monitor_only", false, none)]
  else
    [("monitor_only", false, none)]

/-- Per-decision execution exactly as claim C7 states it: an approval
requirement suppresses execution; the three recognized variants each
produce one Action record of the corresponding kind; anything else
produces nothing. -/
def executedActionSpec (d : Decision) : Option Action :=
  if d.requires_human_approval = true then none
  else if d.dtype = "monitor_only" then
    some { action := "monitoring", note := some d.reason }
  else if d.dtype = "support_guidance" then
    some { action := "support_guidance_prepared"
           message := some ("Provide merchant with migration checklist, " ++
             "webhook verification steps, and API credential validation.")
           reason := some d.reason }
  else if d.dtype = "escalate_engineering" then
    some { action := "engineering_escalation_created"
           severity := d.severity
           summary := some
             "Potential platform regression detected during headless migration." }
  else none

/-! ### Concrete sample values used by witnesses and counterexamples -/

/-- Five empty signal buckets. -/
def sampleSignals : Signals where
  tickets := []
  errors := []
  checkouts := []
  webhooks := []
  migration_states := []

/-- All-zero stats. -/
def sampleStats : Stats where
  ticket_count := 0
  error_count := 0
  failed_checkouts := 0
  error_types := []
  migration_stage_distribution := []

/-- A concrete Observation with a chosen confidence. -/
def sampleObservation (confidence : ℚ) : Observation where
  observation_id := 1
  timestamp := 0
  signals := sampleSignals
  stats := sampleStats
  anomalies := []
  confidence := confidence

/-- A concrete deterministic Reasoning. -/
def sampleReasoning : Reasoning where
  reasoning_mode := "deterministic"
  hypotheses :=
    [{ cause := "normal_operation"
       explanation := "System signals are within expected parameters"
       confidence := 9/10 }]
  assumptions := ["Observed signals accurately reflect system behavior"]
  unknowns := ["Merchant-specific configurations not visible"]
  confidence := 9/10

/-- A concrete decision output. -/
def sampleDecisionOutput : DecisionOutput where
  observation_id := 1
  decisions :=
    [{ dtype := "monitor_only"
       reason := "System operating normally"
       requires_human_approval := false },
     { dtype := "documentation_update_suggestion"
       reason := "Frontend and backend state mismatch observed"
       requires_human_approval := true }]
  risk_level := "medium"
  trace := { observation_confidence := 1, reasoning_confidence := 9/10 }

/-- A concrete Actor state update. -/
def sampleStateUpdate : StateUpdate where
  timestamp := 0
  observation_id := 1
  actions_taken := []
  pending_approvals := []
  risk_level := "low"

/-! ### Helper lemmas -/

namespace Reasoner

lemma foldl_max_le_self (t : List Hypothesis) (a : ℚ) :
    a ≤ t.foldl (fun m h' => max m h'.confidence) a := by
  induction t generalizing a with
  | nil => simp
  | cons h t ih =>
      simpa using le_trans (le_max_left a h.confidence) (ih _)

lemma foldl_max_mem_le (t : List Hypothesis) (a : ℚ) :
    ∀ x ∈ t, x.confidence ≤ t.foldl (fun m h' => max m h'.confidence) a := by
  induction t generalizing a with
  | nil => simp
  | cons h t ih =>
      intro x hx
      rcases List.mem_cons.mp hx with rfl | hx
      · simpa using le_trans (le_max_right a x.confidence)
          (foldl_max_le_self t _)
      · simpa using ih (max a h.confidence) x hx

lemma foldl_max_eq_mem (t : List Hypothesis) (a : ℚ) :
    t.foldl (fun m h' => max m h'.confidence) a = a ∨
      ∃ x ∈ t, t.foldl (fun m h' => max m h'.confidence) a = x.confidence := by
  induction t generalizing a with
  | nil => simp
  | cons h t ih =>
      simp only [List.foldl_cons]
      rcases ih (max a h.confidence) with heq | ⟨x, hx, heq⟩
      · rcases max_cases a h.confidence with ⟨hm, _⟩ | ⟨hm, _⟩
        · left; rw [heq, hm]
        · right
          exact ⟨h, List.mem_cons_self _ _, by rw [heq, hm]⟩
      · right
        exact ⟨x, List.mem_cons_of_mem _ hx, heq⟩

/-- `pyMaxConf` of a non-empty list is an upper bound attained by some
element. -/
lemma pyMaxConf_is_max (l : List Hypothesis) (hne : l ≠ []) :
    (∀ x ∈ l, x.confidence ≤ pyMaxConf l) ∧
      ∃ x ∈ l, pyMaxConf l = x.confidence := by
  match l with
  | [] => exact absurd rfl hne
  | h :: t =>
      refine ⟨?_, ?_⟩
      · intro x hx
        rcases List.mem_cons.mp hx with rfl | hx
        · exact foldl_max_le_self t _
        · exact foldl_max_mem_le t _ x hx
      · rcases foldl_max_eq_mem t h.confidence with heq | ⟨x, hx, heq⟩
        · exact ⟨h, List.mem_cons_self _ _, heq⟩
        · exact ⟨x, List.mem_cons_of_mem _ hx, heq⟩

end Reasoner

namespace Decider

lemma pymaxAux_cons (b h : Hypothesis) (t : List Hypothesis) :
    pymaxAux b (h :: t) =
      pymaxAux (if b.confidence < h.confidence then h else b) t := rfl

/-- Python's running-best `max` returns an element of the list that is
an upper bound of all confidences, and everything strictly before it in
the list has strictly smaller confidence (so ties go to the earliest
element). -/
lemma pymaxAux_spec (t : List Hypothesis) : ∀ b : Hypothesis,
    ∃ i : ℕ, ∃ hi : i < (b :: t).length,
      (b :: t).get ⟨i, hi⟩ = pymaxAux b t ∧
      (∀ h ∈ b :: t, h.confidence ≤ (pymaxAux b t).confidence) ∧
      ∀ h ∈ (b :: t).take i, h.confidence < (pymaxAux b t).confidence := by
  induction t with
  | nil =>
      intro b
      refine ⟨0, by simp, by simp [pymaxAux], ?_, by simp⟩
      intro h hh
      rcases List.mem_cons.mp hh with rfl | hh
      · simp [pymaxAux]
      · simp at hh
  | cons h t ih =>
      intro b
      rw [pymaxAux_cons]
      by_cases hbh : b.confidence < h.confidence
      · rw [if_pos hbh]
        obtain ⟨i, hi, hget, hub, hlt⟩ := ih h
        have hi' : i + 1 < (b :: h :: t).length := by
          simp only [List.length_cons] at hi ⊢; omega
        refine ⟨i + 1, hi', ?_, ?_, ?_⟩
        · simpa using hget
        · intro x hx
          rcases List.mem_cons.mp hx with rfl | hx
          · exact le_trans (le_of_lt hbh) (hub h (List.mem_cons_self _ _))
          · exact hub x hx
        · intro x hx
          rw [List.take_succ_cons] at hx
          rcases List.mem_cons.mp hx with rfl | hx
          · exact lt_of_lt_of_le hbh (hub h (List.mem_cons_self _ _))
          · exact hlt x hx
      · rw [if_neg hbh]
        push_neg at hbh
        obtain ⟨i, hi, hget, hub, hlt⟩ := ih b
        have hub' : ∀ x ∈ b :: h :: t,
            x.confidence ≤ (pymaxAux b t).confidence := by
          intro x hx
          rcases List.mem_cons.mp hx with rfl | hx
          · exact hub x (List.mem_cons_self _ _)
          · rcases List.mem_cons.mp hx with rfl | hx
            · exact le_trans hbh (hub b (List.mem_cons_self _ _))
            · exact hub x (List.mem_cons_of_mem _ hx)
        match i, hi, hget, hlt with
        | 0, hi, hget, hlt =>
            refine ⟨0, by simp, ?_, hub', by simp⟩
            simpa using hget
        | k + 1, hi, hget, hlt =>
            have hk : k < t.length := by
              simp only [List.length_cons] at hi; omega
            have hi' : k + 2 < (b :: h :: t).length := by
              simp only [List.length_cons]; omega
            refine ⟨k + 2, hi', ?_, hub', ?_⟩
            · simpa using hget
            · intro x hx
              have hb : b.confidence < (pymaxAux b t).confidence := by
                refine hlt b ?_
                rw [List.take_succ_cons]
                exact List.mem_cons_self _ _
              rw [List.take_succ_cons, List.take_succ_cons] at hx
              rcases List.mem_cons.mp hx with rfl | hx
              · exact hb
              · rcases List.mem_cons.mp hx with rfl | hx
                · exact lt_of_le_of_lt hbh hb
                · refine hlt x ?_
                  rw [List.take_succ_cons]
                  exact List.mem_cons_of_mem _ hx

end Decider

namespace Observer

/-- The `repeated_error` loop of `_detect_anomalies` appends exactly
the qualifying items, in order. -/
lemma foldl_repeated_eq (l : List (String × Nat)) (acc : List Anomaly) :
    l.foldl (fun acc p =>
        if p.2 ≥ 5 then acc ++ [repeatedErrorAnomaly p] else acc) acc =
      acc ++ l.filterMap (fun p =>
        if 5 ≤ p.2 then some (repeatedErrorAnomaly p) else none) := by
  induction l generalizing acc with
  | nil => simp
  | cons p l ih =>
      simp only [List.foldl_cons, List.filterMap_cons]
      by_cases hp : 5 ≤ p.2
      · rw [if_pos hp, if_pos hp, ih, List.append_assoc]
        rfl
      · rw [if_neg hp, if_neg hp, ih]

lemma detectAnomalies_eq (stats : Stats) :
    detectAnomalies stats =
      (if stats.failed_checkouts > 0 then
        [checkoutAnomaly stats.failed_checkouts]
      else []) ++
      stats.error_types.filterMap (fun p =>
        if 5 ≤ p.2 then some (repeatedErrorAnomaly p) else none) := by
  simp only [detectAnomalies]
  rw [foldl_repeated_eq]
  split_ifs <;> simp

end Observer

section Histogram

lemma bumpCount_keys (l : List (String × Nat)) (k : String) :
    (bumpCount l k).map Prod.fst =
      if k ∈ l.map Prod.fst then l.map Prod.fst
      else l.map Prod.fst ++ [k] := by
  induction l with
  | nil => simp [bumpCount]
  | cons p l ih =>
      obtain ⟨k', n⟩ := p
      by_cases hk : k' = k
      · subst hk
        simp [bumpCount]
      · have hne : ¬ k = k' := fun h => hk h.symm
        simp only [bumpCount, if_neg hk, List.map_cons, List.mem_cons, ih]
        by_cases hmem : k ∈ l.map Prod.fst
        · simp [hmem, hne]
        · simp [hmem, hne]

lemma bumpCount_keys_nodup (l : List (String × Nat)) (k : String)
    (hl : (l.map Prod.fst).Nodup) : ((bumpCount l k).map Prod.fst).Nodup := by
  rw [bumpCount_keys]
  by_cases hmem : k ∈ l.map Prod.fst
  · rwa [if_pos hmem]
  · rw [if_neg hmem]
    refine List.nodup_append.mpr ⟨hl, List.nodup_singleton k, ?_⟩
    intro a ha hak
    rw [List.mem_singleton] at hak
    subst hak
    exact hmem ha

/-- Python dict keys are unique: every histogram the Observer builds
has pairwise-distinct keys. -/
lemma histogram_keys_nodup (keys : List String) :
    ((histogram keys).map Prod.fst).Nodup := by
  have main : ∀ (ks : List String) (acc : List (String × Nat)),
      (acc.map Prod.fst).Nodup →
        ((ks.foldl bumpCount acc).map Prod.fst).Nodup := by
    intro ks
    induction ks with
    | nil => intro acc hacc; simpa using hacc
    | cons k ks ih =>
        intro acc hacc
        exact ih (bumpCount acc k) (bumpCount_keys_nodup acc k hacc)
  exact main keys [] (by simp)

end Histogram

namespace Memory

/-- The inner loop of `query_similar` succeeds exactly when some
hypothesis survives both `continue` tests. -/
lemma entryMatches_iff (cause : Option String) (f : ℚ)
    (hs : List Hypothesis) :
    entryMatches cause f hs = true ↔
      ∃ h ∈ hs, causeFilterPasses cause h = true ∧ f ≤ h.confidence := by
  induction hs with
  | nil => simp [entryMatches]
  | cons h t ih =>
      by_cases hc : causeFilterPasses cause h = true
      · by_cases hf : h.confidence < f
        · have : entryMatches cause f (h :: t) = entryMatches cause f t := by
            simp [entryMatches, hc, hf]
          rw [this, ih]
          constructor
          · rintro ⟨x, hx, hpass, hconf⟩
            exact ⟨x, List.mem_cons_of_mem _ hx, hpass, hconf⟩
          · rintro ⟨x, hx, hpass, hconf⟩
            rcases List.mem_cons.mp hx with rfl | hx
            · exact absurd hconf (by simpa using hf)
            · exact ⟨x, hx, hpass, hconf⟩
        · have : entryMatches cause f (h :: t) = true := by
            simp [entryMatches, hc, hf]
          rw [this]
          simp only [true_iff]
          exact ⟨h, List.mem_cons_self _ _, hc, le_of_not_lt hf⟩
      · have : entryMatches cause f (h :: t) = entryMatches cause f t := by
          simp [entryMatches, hc]
        rw [this, ih]
        constructor
        · rintro ⟨x, hx, hpass, hconf⟩
          exact ⟨x, List.mem_cons_of_mem _ hx, hpass, hconf⟩
        · rintro ⟨x, hx, hpass, hconf⟩
          rcases List.mem_cons.mp hx with rfl | hx
          · exact absurd hpass hc
          · exact ⟨x, hx, hpass, hconf⟩

/-- `update_outcome` on a collection whose prefix does not carry the id
walks past the prefix unchanged. -/
lemma update_outcome_append_fresh (mem : List Incident) (inc : Incident)
    (incident_id : String) (oc : List (String × String)) (now : ℚ)
    (hfresh : ∀ e ∈ mem, e.incident_id ≠ incident_id)
    (hinc : inc.incident_id = incident_id) :
    update_outcome (mem ++ [inc]) incident_id oc now =
      mem ++ [{ inc with outcome := some { timestamp := now, payload := oc } }] := by
  induction mem with
  | nil => simp [update_outcome, hinc]
  | cons e rest ih =>
      have he : e.incident_id ≠ incident_id :=
        hfresh e (List.mem_cons_self _ _)
      simp only [List.cons_append, update_outcome, if_neg he, List.append_eq]
      rw [ih (fun x hx => hfresh x (List.mem_cons_of_mem _ hx))]

lemma lookup_append_fresh (mem : List Incident) (inc : Incident)
    (incident_id : String)
    (hfresh : ∀ e ∈ mem, e.incident_id ≠ incident_id)
    (hinc : inc.incident_id = incident_id) :
    lookup (mem ++ [inc]) incident_id = some inc := by
  induction mem with
  | nil => simp [lookup, List.find?, hinc]
  | cons e rest ih =>
      have he : e.incident_id ≠ incident_id :=
        hfresh e (List.mem_cons_self _ _)
      rw [List.cons_append]
      show List.find? _ (e :: (rest ++ [inc])) = some inc
      rw [List.find?_cons_of_neg _ (by simpa using he)]
      exact ih (fun x hx => hfresh x (List.mem_cons_of_mem _ hx))

end Memory

/-! ### Claim theorems -/

/-- C1: for every observation whose confidence is strictly below 0.6
and every reasoning, `Decider.decide` returns exactly one decision, of
variant `block_auto_actions` with `requires_human_approval = true`, the
output's `risk_level` is `"high"`, and the result is unchanged by
replacing the reasoning's hypotheses with any other list. -/
theorem C1_low_confidence_blocks (observation : Observation)
    (reasoning : Reasoning) (hyps : List Hypothesis)
    (h : observation.confidence < 6/10) :
    (Decider.decide observation reasoning).decisions =
      [{ dtype := "block_auto_actions"
         reason := "Low observation confidence"
         requires_human_approval := true }] ∧
    (Decider.decide observation reasoning).risk_level = "high" ∧
    Decider.decide observation { reasoning with hypotheses := hyps } =
      Decider.decide observation reasoning := by
  refine ⟨?_, ?_, ?_⟩ <;>
    simp [Decider.decide, Decider.block, if_pos h]

/-- Witness for C1 at a concrete observation of confidence 0.5. -/
theorem C1_low_confidence_blocks_witness :
    (Decider.decide (sampleObservation (1/2)) sampleReasoning).decisions =
      [{ dtype := "block_auto_actions"
         reason := "Low observation confidence"
         requires_human_approval := true }] ∧
    (Decider.decide (sampleObservation (1/2)) sampleReasoning).risk_level =
      "high" ∧
    Decider.decide (sampleObservation (1/2))
        { sampleReasoning with hypotheses := [] } =
      Decider.decide (sampleObservation (1/2)) sampleReasoning :=
  C1_low_confidence_blocks (sampleObservation (1/2)) sampleReasoning []
    (by norm_num [sampleObservation])

/-- C2: whenever the Reasoner takes its delegate path and the
configured delegate's `generate` call fails (raises), `Reasoner.reason`
still returns normally, with mode `llm_failed`, exactly one hypothesis
of cause `unknown` and confidence 0.4, overall confidence 0.4, and the
failure reason recorded; no exception reaches the caller. -/
theorem C2_delegate_failure_contained
    (gen : String → Except String LLMResponse) (observation : Observation)
    (e : String)
    (hgen : gen (Reasoner.buildPrompt observation) = Except.error e)
    (hllm : Reasoner.shouldUseLLM observation = true) :
    Reasoner.reason (some gen) true observation =
      { reasoning_mode := "llm_failed"
        hypotheses :=
          [{ cause := "unknown"
             explanation := "LLM failed or returned malformed output"
             confidence := 4/10 }]
        assumptions := []
        unknowns := ["LLM reasoning failed"]
        confidence := 4/10
        error := some e } := by
  simp [Reasoner.reason, hllm, hgen, Reasoner.reasonWithLLM,
    Reasoner.llmFailedFallback]

/-- Witness for C2: a delegate that always fails with "timeout", on a
low-confidence observation that routes to the delegate path. -/
theorem C2_delegate_failure_contained_witness :
    Reasoner.reason (some fun _ => Except.error "timeout") true
        (sampleObservation (1/2)) =
      { reasoning_mode := "llm_failed"
        hypotheses :=
          [{ cause := "unknown"
             explanation := "LLM failed or returned malformed output"
             confidence := 4/10 }]
        assumptions := []
        unknowns := ["LLM reasoning failed"]
        confidence := 4/10
        error := some "timeout" } :=
  C2_delegate_failure_contained (fun _ => Except.error "timeout")
    (sampleObservation (1/2)) "timeout" rfl
    (by norm_num [Reasoner.shouldUseLLM, sampleObservation])

/-- C3: for every observation, deterministic reasoning emits exactly
one hypothesis per firing threshold rule and the single
`normal_operation`/0.9 hypothesis when no rule fires (so the list is
never empty), and its overall confidence equals the maximum of the
emitted hypothesis confidences (an upper bound attained by some
emitted hypothesis). -/
theorem C3_deterministic_rules (observation : Observation) :
    (Reasoner.reasonDeterministic observation).hypotheses =
      detHypothesesSpec observation ∧
    (Reasoner.reasonDeterministic observation).hypotheses ≠ [] ∧
    (∀ h ∈ (Reasoner.reasonDeterministic observation).hypotheses,
      h.confidence ≤ (Reasoner.reasonDeterministic observation).confidence) ∧
    ∃ h ∈ (Reasoner.reasonDeterministic observation).hypotheses,
      (Reasoner.reasonDeterministic observation).confidence = h.confidence := by
  have heq : (Reasoner.reasonDeterministic observation).hypotheses =
      detHypothesesSpec observation := by
    simp only [Reasoner.reasonDeterministic, detHypothesesSpec]
    split_ifs <;> simp_all
  have hconf : (Reasoner.reasonDeterministic observation).confidence =
      Reasoner.pyMaxConf (Reasoner.reasonDeterministic observation).hypotheses :=
    rfl
  have hne : (Reasoner.reasonDeterministic observation).hypotheses ≠ [] := by
    rw [heq]
    simp only [detHypothesesSpec]
    split_ifs <;> simp_all
  obtain ⟨hub, hmem⟩ :=
    Reasoner.pyMaxConf_is_max
      (Reasoner.reasonDeterministic observation).hypotheses hne
  refine ⟨heq, hne, ?_, ?_⟩
  · intro h hh
    rw [hconf]
    exact hub h hh
  · obtain ⟨x, hx, hxe⟩ := hmem
    exact ⟨x, hx, by rw [hconf]; exact hxe⟩

lemma missingSources_le_five (signals : Signals) :
    Observer.missingSources signals ≤ 5 := by
  unfold Observer.missingSources
  split_ifs <;> norm_num

/-- C4: for every raw-signal batch, `Observer.observe` returns
confidence `max(0.5, 1.0 - 0.1 * number_of_empty_buckets)` — hence in
[0.5, 1.0] — and an anomaly list consisting of exactly one
`checkout_failures` anomaly of severity `high` when
`failed_checkouts > 0`, plus one `repeated_error` anomaly of severity
`medium` per error type whose count is ≥ 5 (the error-type keys are
pairwise distinct), and nothing else. -/
theorem C4_observer_confidence_and_anomalies (prevId : Nat) (now : ℚ)
    (raw : RawSignals) :
    let observation := (Observer.observe prevId now raw).2
    observation.confidence =
      max (1/2)
        (1 - (Observer.missingSources observation.signals : ℚ) * (1/10)) ∧
    1/2 ≤ observation.confidence ∧ observation.confidence ≤ 1 ∧
    observation.anomalies =
      (if observation.stats.failed_checkouts > 0 then
        [{ atype := "checkout_failures"
           error_type := none
           count := observation.stats.failed_checkouts
           severity := "high" }]
      else []) ++
      observation.stats.error_types.filterMap (fun p =>
        if 5 ≤ p.2 then
          some { atype := "repeated_error"
                 error_type := some p.1
                 count := p.2
                 severity := "medium" }
        else none) ∧
    (observation.stats.error_types.map Prod.fst).Nodup := by
  intro observation
  have hsig : observation.signals = Observer.ingestSignals raw := rfl
  have hconf : observation.confidence =
      Observer.estimateConfidence (Observer.ingestSignals raw) := rfl
  have hform : observation.confidence =
      max (1/2)
        (1 - (Observer.missingSources observation.signals : ℚ) * (1/10)) := by
    rw [hconf, Observer.estimateConfidence, max_comm, hsig]
  have hm5 : (Observer.missingSources observation.signals : ℚ) ≤ 5 := by
    exact_mod_cast missingSources_le_five observation.signals
  have hm0 : (0:ℚ) ≤ (Observer.missingSources observation.signals : ℚ) := by
    positivity
  refine ⟨hform, ?_, ?_, ?_, ?_⟩
  · rw [hform]; exact le_max_left _ _
  · rw [hform]
    apply max_le (by norm_num)
    nlinarith
  · have hanom : observation.anomalies =
        Observer.detectAnomalies (Observer.computeStats
          (Observer.ingestSignals raw)) := rfl
    have hstats : observation.stats =
        Observer.computeStats (Observer.ingestSignals raw) := rfl
    rw [hanom, Observer.detectAnomalies_eq, ← hstats]
    rfl
  · have hstats : observation.stats.error_types =
        histogram ((Observer.ingestSignals raw).errors.map
          (fun e => e.etype.getD "unknown")) := rfl
    rw [hstats]
    exact histogram_keys_nodup _

/-- C5: for every observation with confidence ≥ 0.6 and every
reasoning, `Decider.decide` maps the cause of the selected top
hypothesis through the fixed policy table, where the selected
hypothesis is an element of maximal confidence with every strictly
earlier element of strictly smaller confidence (ties favour the
earliest), and an empty hypothesis list yields the default cause
`"unknown"` (hence the cautious `monitor_only` default). -/
theorem C5_policy_by_cause (observation : Observation)
    (reasoning : Reasoning) (h : ¬ observation.confidence < 6/10) :
    ((Decider.decide observation reasoning).decisions.map (fun d =>
        (d.dtype, d.requires_human_approval, d.severity))) =
      policyTableSpec
        (Decider.getTopHypothesis reasoning.hypotheses).cause ∧
    (reasoning.hypotheses = [] →
      (Decider.getTopHypothesis reasoning.hypotheses).cause = "unknown") ∧
    (reasoning.hypotheses ≠ [] →
      ∃ i : ℕ, ∃ hi : i < reasoning.hypotheses.length,
        reasoning.hypotheses.get ⟨i, hi⟩ =
          Decider.getTopHypothesis reasoning.hypotheses ∧
        (∀ h' ∈ reasoning.hypotheses, h'.confidence ≤
          (Decider.getTopHypothesis reasoning.hypotheses).confidence) ∧
        ∀ h' ∈ reasoning.hypotheses.take i, h'.confidence <
          (Decider.getTopHypothesis reasoning.hypotheses).confidence) := by
  refine ⟨?_, ?_, ?_⟩
  · simp only [Decider.decide, if_neg h, policyTableSpec]
    split_ifs <;>
      simp [Decider.finalize, Decider.monitorOnly, Decider.supportGuidance,
        Decider.escalateEngineering, Decider.documentationUpdate]
  · intro he
    rw [he]
    rfl
  · intro hne
    obtain ⟨b, t, hbt⟩ : ∃ b t, reasoning.hypotheses = b :: t := by
      cases hhyps : reasoning.hypotheses with
      | nil => exact absurd hhyps hne
      | cons b t => exact ⟨b, t, rfl⟩
    rw [hbt]
    have htop : Decider.getTopHypothesis (b :: t) = Decider.pymaxAux b t := rfl
    rw [htop]
    exact Decider.pymaxAux_spec t b

/-- Witness for C5 at a confident observation and a two-hypothesis
reasoning whose top hypothesis is the later, higher-confidence
`platform_regression`. -/
theorem C5_policy_by_cause_witness :
    ((Decider.decide (sampleObservation 1)
        { sampleReasoning with hypotheses :=
            [{ cause := "normal_operation"
               explanation := ""
               confidence := 1/2 },
             { cause := "platform_regression"
               explanation := ""
               confidence := 3/4 }] }).decisions.map (fun d =>
        (d.dtype, d.requires_human_approval, d.severity))) =
      [("escalate_engineering", false, some "high")] := by
  have h := C5_policy_by_cause (sampleObservation 1)
    { sampleReasoning with hypotheses :=
        [{ cause := "normal_operation"
           explanation := ""
           confidence := 1/2 },
         { cause := "platform_regression"
           explanation := ""
           confidence := 3/4 }] }
    (by norm_num [sampleObservation])
  rw [h.1]
  norm_num [sampleReasoning, Decider.getTopHypothesis, Decider.pymaxAux,
    policyTableSpec]

/-- C6: on the non-blocked path the aggregate `risk_level` is `"high"`
when some decision is an `escalate_engineering`, else `"medium"` when
some decision requires human approval, else `"low"`; and
`Decider._assess_risk` maps any decision list containing an
`escalate_engineering` entry to `"high"`. -/
theorem C6_risk_aggregation (observation : Observation)
    (reasoning : Reasoning) (h : ¬ observation.confidence < 6/10) :
    ((Decider.decide observation reasoning).risk_level =
      if ∃ d ∈ (Decider.decide observation reasoning).decisions,
          d.dtype = "escalate_engineering" then "high"
      else if ∃ d ∈ (Decider.decide observation reasoning).decisions,
          d.requires_human_approval = true then "medium"
      else "low") ∧
    ∀ ds : List Decision,
      Decider.assessRisk ds =
        if ∃ d ∈ ds, d.dtype = "escalate_engineering" then "high"
        else if ∃ d ∈ ds, d.requires_human_approval = true then "medium"
        else "low" := by
  have hrisk : ∀ ds : List Decision,
      Decider.assessRisk ds =
        if ∃ d ∈ ds, d.dtype = "escalate_engineering" then "high"
        else if ∃ d ∈ ds, d.requires_human_approval = true then "medium"
        else "low" := by
    intro ds
    unfold Decider.assessRisk
    by_cases h1 : ∃ d ∈ ds, d.dtype = "escalate_engineering"
    · rw [if_pos h1, if_pos (by simpa [List.any_eq_true] using h1)]
    · rw [if_neg h1, if_neg (by simpa [List.any_eq_true] using h1)]
      by_cases h2 : ∃ d ∈ ds, d.requires_human_approval = true
      · rw [if_pos h2, if_pos (by simpa [List.any_eq_true] using h2)]
      · rw [if_neg h2, if_neg (by simpa [List.any_eq_true] using h2)]
  refine ⟨?_, hrisk⟩
  have hlevel : (Decider.decide observation reasoning).risk_level =
      Decider.assessRisk (Decider.decide observation reasoning).decisions := by
    simp only [Decider.decide, if_neg h]
    split_ifs <;> rfl
  rw [hlevel, hrisk]

/-- Witness for C6 at a confident observation whose top cause forces an
engineering escalation, hence risk `"high"`. -/
theorem C6_risk_aggregation_witness :
    (Decider.decide (sampleObservation 1)
        { sampleReasoning with hypotheses :=
            [{ cause := "platform_regression"
               explanation := ""
               confidence := 3/4 }] }).risk_level = "high" := by
  have h := C6_risk_aggregation (sampleObservation 1)
    { sampleReasoning with hypotheses :=
        [{ cause := "platform_regression"
           explanation := ""
           confidence := 3/4 }] }
    (by norm_num [sampleObservation])
  rw [h.1]
  norm_num [Decider.decide, sampleObservation, Decider.getTopHypothesis,
    Decider.pymaxAux, Decider.escalateEngineering, Decider.finalize]

lemma execute_eq_spec (d : Decision)
    (hreq : d.requires_human_approval = false) :
    Actor.execute d = executedActionSpec d := by
  rw [executedActionSpec, if_neg (by simp [hreq])]
  rfl

/-- C7: `Actor.act` partitions the decision set — every decision
requiring human approval goes unmodified to `pending_approvals` and
produces no Action; each non-approval `monitor_only`,
`support_guidance` or `escalate_engineering` decision produces exactly
one Action record of the corresponding kind in `actions_taken`; and any
other variant produces nothing (no error). -/
theorem C7_actor_partition (now : ℚ) (decision_output : DecisionOutput) :
    (Actor.act now decision_output).pending_approvals =
      decision_output.decisions.filter
        (fun d => d.requires_human_approval) ∧
    (Actor.act now decision_output).actions_taken =
      decision_output.decisions.filterMap executedActionSpec := by
  have main : ∀ ds : List Decision,
      Actor.actLoop ds =
        (ds.filterMap executedActionSpec,
         ds.filter (fun d => d.requires_human_approval)) := by
    intro ds
    induction ds with
    | nil => rfl
    | cons d rest ih =>
        simp only [Actor.actLoop, ih, List.filterMap_cons, List.filter_cons]
        by_cases hreq : d.requires_human_approval
        · simp [executedActionSpec, hreq]
        · have hreq' : d.requires_human_approval = false := by
            simpa using hreq
          rw [← execute_eq_spec d hreq']
          cases hex : Actor.execute d <;> simp [hreq']
  exact ⟨congrArg Prod.snd (main decision_output.decisions),
    congrArg Prod.fst (main decision_output.decisions)⟩

/-- Counterexample to C8 as stated: in the source,
`Memory.update_outcome` unconditionally overwrites `outcome` with a
dict whose `timestamp` is the current time, so a second call on the
same id replaces the attachment timestamp set by the first call (10
becomes 20 below). -/
theorem C8_counterexample :
    (Memory.lookup
        (Memory.update_outcome
          (Memory.update_outcome
            (Memory.record_incident [] (sampleObservation 1) sampleReasoning
              sampleDecisionOutput sampleStateUpdate "incident-1" 0).1
            "incident-1" [] 10)
          "incident-1" [] 20)
        "incident-1").map (fun entry =>
          entry.outcome.map (fun o => o.timestamp)) = some (some 20) ∧
    (Memory.lookup
        (Memory.update_outcome
          (Memory.record_incident [] (sampleObservation 1) sampleReasoning
            sampleDecisionOutput sampleStateUpdate "incident-1" 0).1
          "incident-1" [] 10)
        "incident-1").map (fun entry =>
          entry.outcome.map (fun o => o.timestamp)) = some (some 10) ∧
    (20 : ℚ) ≠ 10 := by
  refine ⟨?_, ?_, by norm_num⟩ <;>
    simp [Memory.record_incident, Memory.update_outcome, Memory.lookup,
      List.find?]

/-- C8 (amended): `record_incident` stores the new incident with a null
outcome and returns its id, so an immediate lookup yields
`outcome = none`; after one `update_outcome` call the stored outcome is
non-null, carrying the first call's timestamp; a second `update_outcome`
call on the same id overwrites the outcome, replacing the attachment
timestamp with the second call's time. -/
theorem C8_outcome_lifecycle (mem : List Incident)
    (observation : Observation) (reasoning : Reasoning)
    (decision : DecisionOutput) (action : StateUpdate) (freshId : String)
    (t0 t1 t2 : ℚ) (oc1 oc2 : List (String × String))
    (hfresh : ∀ e ∈ mem, e.incident_id ≠ freshId) :
    (Memory.record_incident mem observation reasoning decision action
      freshId t0).2 = freshId ∧
    (Memory.lookup (Memory.record_incident mem observation reasoning
        decision action freshId t0).1 freshId).map (fun e => e.outcome) =
      some none ∧
    (Memory.lookup (Memory.update_outcome (Memory.record_incident mem
        observation reasoning decision action freshId t0).1 freshId oc1 t1)
        freshId).map (fun e => e.outcome) =
      some (some { timestamp := t1, payload := oc1 }) ∧
    (Memory.lookup (Memory.update_outcome (Memory.update_outcome
        (Memory.record_incident mem observation reasoning decision action
          freshId t0).1 freshId oc1 t1) freshId oc2 t2)
        freshId).map (fun e => e.outcome) =
      some (some { timestamp := t2, payload := oc2 }) := by
  set inc : Incident :=
    { incident_id := freshId
      timestamp := t0
      observation := observation
      reasoning := reasoning
      decision := decision
      action := action
      outcome := none } with hinc
  have hrec : (Memory.record_incident mem observation reasoning decision
      action freshId t0).1 = mem ++ [inc] := rfl
  have hid : inc.incident_id = freshId := rfl
  have hupd1 : Memory.update_outcome (mem ++ [inc]) freshId oc1 t1 =
      mem ++ [{ inc with outcome := some ⟨t1, oc1⟩ }] :=
    Memory.update_outcome_append_fresh mem inc freshId oc1 t1 hfresh hid
  have hupd2 : Memory.update_outcome
      (mem ++ [{ inc with outcome := some ⟨t1, oc1⟩ }]) freshId oc2 t2 =
      mem ++ [{ inc with outcome := some ⟨t2, oc2⟩ }] :=
    Memory.update_outcome_append_fresh mem _ freshId oc2 t2 hfresh hid
  refine ⟨rfl, ?_, ?_, ?_⟩
  · rw [hrec, Memory.lookup_append_fresh mem inc freshId hfresh hid]
    rfl
  · rw [hrec, hupd1, Memory.lookup_append_fresh mem
      { inc with outcome := some ⟨t1, oc1⟩ } freshId hfresh rfl]
    rfl
  · rw [hrec, hupd1, hupd2, Memory.lookup_append_fresh mem
      { inc with outcome := some ⟨t2, oc2⟩ } freshId hfresh rfl]
    rfl

/-- Witness for C8 (amended) at a concrete empty prior collection. -/
theorem C8_outcome_lifecycle_witness :
    (Memory.record_incident [] (sampleObservation 1) sampleReasoning
      sampleDecisionOutput sampleStateUpdate "incident-1" 0).2 =
        "incident-1" ∧
    (Memory.lookup (Memory.record_incident [] (sampleObservation 1)
        sampleReasoning sampleDecisionOutput sampleStateUpdate "incident-1"
        0).1 "incident-1").map (fun e => e.outcome) = some none ∧
    (Memory.lookup (Memory.update_outcome (Memory.record_incident []
        (sampleObservation 1) sampleReasoning sampleDecisionOutput
        sampleStateUpdate "incident-1" 0).1 "incident-1"
        [("status", "resolved")] 5) "incident-1").map (fun e => e.outcome) =
      some (some { timestamp := 5, payload := [("status", "resolved")] }) ∧
    (Memory.lookup (Memory.update_outcome (Memory.update_outcome
        (Memory.record_incident [] (sampleObservation 1) sampleReasoning
          sampleDecisionOutput sampleStateUpdate "incident-1" 0).1
        "incident-1" [("status", "resolved")] 5) "incident-1"
        [("status", "reopened")] 7) "incident-1").map (fun e => e.outcome) =
      some (some { timestamp := 7, payload := [("status", "reopened")] }) :=
  C8_outcome_lifecycle [] (sampleObservation 1) sampleReasoning
    sampleDecisionOutput sampleStateUpdate "incident-1" 0 5 7
    [("status", "resolved")] [("status", "reopened")] (by simp)

lemma count_filter_eq {α : Type} [DecidableEq α] (p : α → Bool)
    (l : List α) (a : α) :
    (l.filter p).count a = if p a = true then l.count a else 0 := by
  induction l with
  | nil => simp
  | cons e rest ih =>
      rw [List.filter_cons]
      rcases eq_or_ne e a with rfl | hne
      · by_cases hp : p e = true
        · simp [hp, List.count_cons, ih]
        · simp [hp, ih]
      · by_cases hp : p e = true
        · simp [hp, List.count_cons, hne, ih]
        · simp [hp, List.count_cons, hne, ih]

/-- C10: `Memory.query_similar` returns an incident iff at least one of
its reasoning's hypotheses passes both the cause filter (when given;
the source also treats an empty cause string as absent) and the
confidence floor, and each stored incident occurrence contributes at
most one result occurrence even when several hypotheses qualify. -/
theorem C10_query_similar_exactly_once (memory : List Incident)
    (cause : Option String) (min_confidence : ℚ) :
    (∀ entry, entry ∈ Memory.query_similar memory cause min_confidence ↔
      entry ∈ memory ∧ ∃ h ∈ entry.reasoning.hypotheses,
        Memory.causeFilterPasses cause h = true ∧
        min_confidence ≤ h.confidence) ∧
    ∀ entry,
      (Memory.query_similar memory cause min_confidence).count entry =
        if ∃ h ∈ entry.reasoning.hypotheses,
            Memory.causeFilterPasses cause h = true ∧
            min_confidence ≤ h.confidence
        then memory.count entry else 0 := by
  constructor
  · intro entry
    rw [Memory.query_similar, List.mem_filter, Memory.entryMatches_iff]
  · intro entry
    rw [Memory.query_similar, count_filter_eq]
    by_cases hq : ∃ h ∈ entry.reasoning.hypotheses,
        Memory.causeFilterPasses cause h = true ∧
        min_confidence ≤ h.confidence
    · rw [if_pos hq, if_pos ((Memory.entryMatches_iff _ _ _).mpr hq)]
    · rw [if_neg hq,
        if_neg (fun hmatch => hq ((Memory.entryMatches_iff _ _ _).mp hmatch))]

end Cosmos
